import Mathlib

set_option maxHeartbeats 1000000

/-! Shallow embedding of the Drupal content batch processor
(`examples/batch-processor.py`): the paginated aggregator
`DrupalContentBatchProcessor` with its operations `fetch_content_page`,
`get_pagination_info` and `fetch_items`.  The external HTTP collaborator
is modelled as an oracle from request parameters to parsed responses, and
the observable behaviour of a run (requests issued, progress-callback
invocations) is returned as an event list. -/

/-- Opaque content record; the aggregator only forwards these fields. -/
structure ContentItem where
  title : String
  ctype : String
  author : String
deriving DecidableEq

/-- Shape of the JSON value stored in the `content` field of a response.
Python truthiness and support for `len` depend on this shape. -/
inductive PyVal where
  | vnull : PyVal
  | vbool : Bool → PyVal
  | vint : Int → PyVal
  | vstr : String → PyVal
  | vlist : List ContentItem → PyVal
deriving DecidableEq

/-- Python truthiness of a JSON value. -/
def truthy : PyVal → Bool
  | .vnull => false
  | .vbool b => b
  | .vint n => n != 0
  | .vstr s => s != ""
  | .vlist xs => !xs.isEmpty

/-- Python `len`, defined only on values that support it; `none` models the
TypeError raised on the others. -/
def pyLen : PyVal → Option Nat
  | .vstr s => some s.length
  | .vlist xs => some xs.length
  | _ => none

/-- Truthiness of `data.get('content')`; an absent key yields Python None,
which is falsy. -/
def truthyContent : Option PyVal → Bool
  | none => false
  | some v => truthy v

/-- Raw `pagination` object of a response body; each field may be absent. -/
structure PagRaw where
  totalPages : Option Int
  totalItems : Option Int
  hasNextPage : Option Bool
deriving DecidableEq

/-- Parsed JSON body of one `/content` response (`data` in the source).
`success` is the truthiness of `data.get('success')`; `content` is `none`
when the key is absent; `errorMsg` is `data.get('error')`. -/
structure PageData where
  success : Bool
  content : Option PyVal
  errorMsg : Option String
  pagination : Option PagRaw
deriving DecidableEq

/-- Normalized pagination info as returned by `get_pagination_info`. -/
structure PaginationInfo where
  totalPages : Int
  totalItems : Int
  hasNextPage : Bool
deriving DecidableEq

/-- The dict returned by `fetch_items`. -/
structure AggregationResult where
  content : List ContentItem
  totalFetched : Nat
  requested : Int
  actual : Nat
  pagesFetched : Nat
  pagination : PaginationInfo
deriving DecidableEq

/-- The external fetch collaborator: one HTTP GET against `/content` with
query parameters `page`, `limit` and optional `type`; `.error` stands for a
transport failure (a `requests` exception or a non-2xx status raised by
`raise_for_status`). -/
def Server : Type := Int → Int → Option String → Except String PageData

/-- Errors raised by the batch processor. -/
inductive FetchErr where
  | transport : String → FetchErr
  | typeError : FetchErr
  | fetchFail : Int → String → FetchErr
  | zeroDiv : FetchErr
deriving DecidableEq

/-- Observable events of one `fetch_items` run, in order: requests issued
to the collaborator and progress-callback invocations. -/
inductive Event where
  | fetchReq : Int → Int → Option String → Event
  | progress : Int → Int → Nat → Event
deriving DecidableEq

/-- Embeds `fetch_content_page`: performs the request, propagates transport
errors, evaluates `len(data.get('content', []))` for the log line when the
content value is truthy (raising a TypeError when that value has no
length), and returns the parsed body unchanged. -/
def fetch_content_page (s : Server) (page limit : Int) (content_type : Option String) :
    Except FetchErr PageData :=
  match s page limit content_type with
  | .error e => .error (.transport e)
  | .ok data =>
    if truthyContent data.content then
      match data.content with
      | some v =>
        match pyLen v with
        | none => .error .typeError
        | some _ => .ok data
      | none => .ok data
    else .ok data

/-- Embeds `get_pagination_info`: a probe fetch of page 1 with limit 1,
then `first_page.get('pagination', \x7b\x7d)` read with defaults 0, 0, False. -/
def get_pagination_info (s : Server) (content_type : Option String) :
    Except FetchErr PaginationInfo :=
  match fetch_content_page s 1 1 content_type with
  | .error e => .error e
  | .ok first_page =>
    .ok { totalPages := (first_page.pagination.bind PagRaw.totalPages).getD 0
        , totalItems := (first_page.pagination.bind PagRaw.totalItems).getD 0
        , hasNextPage := (first_page.pagination.bind PagRaw.hasNextPage).getD false }

/-- The `options` dict of `fetch_items`; `hasProgress` records whether an
`onProgress` callback was supplied. -/
structure FetchOptions where
  contentType : Option String := none
  pageSize : Int := 50
  hasProgress : Bool := false
deriving DecidableEq

/-- Planning step of `fetch_items`:
`pages_needed = (count + page_size - 1) // page_size` with Python floor
division. -/
def pages_needed (count page_size : Int) : Int :=
  (count + page_size - 1).fdiv page_size

/-- Planning step of `fetch_items`:
`actual_pages = min(pages_needed, pagination['totalPages'])`. -/
def actual_pages (count page_size totalPages : Int) : Int :=
  min (pages_needed count page_size) totalPages

/-- The page numbers `range(1, actual_pages + 1)` iterated by the fetch
loop of `fetch_items`. -/
def pagesToFetch (count page_size totalPages : Int) : List Int :=
  (List.range (actual_pages count page_size totalPages).toNat).map (fun (i : Nat) => (i : Int) + 1)

/-- Length passed to the progress callback: `len(data.get('content', []))`;
`none` models the TypeError on a length-less content value. -/
def cbLen (data : PageData) : Option Nat :=
  match data.content with
  | none => some 0
  | some v => pyLen v

/-- Contribution of one fetched page to the aggregation: its content when
`result.get('content') and isinstance(result['content'], list)` holds,
nothing otherwise (the page is skipped with a warning). -/
def pageContrib (data : PageData) : List ContentItem :=
  match data.content with
  | some (.vlist xs) => if xs.isEmpty then [] else xs
  | _ => []

/-- The sequential fetch loop of `fetch_items` over a list of page numbers:
emits one request event per attempted page, checks the success flag, runs
the progress callback when installed, and collects the page bodies; it
stops at the first raised error. -/
def fetchPages (s : Server) (sz : Int) (ct : Option String) (cb : Bool) (ap : Int) :
    List Int → List Event × Except FetchErr (List PageData)
  | [] => ([], .ok [])
  | p :: rest =>
    match fetch_content_page s p sz ct with
    | .error e => ([.fetchReq p sz ct], .error e)
    | .ok data =>
      if data.success then
        if cb then
          match cbLen data with
          | none => ([.fetchReq p sz ct], .error .typeError)
          | some n =>
            match fetchPages s sz ct cb ap rest with
            | (evs, .error e) => (.fetchReq p sz ct :: .progress p ap n :: evs, .error e)
            | (evs, .ok ds) => (.fetchReq p sz ct :: .progress p ap n :: evs, .ok (data :: ds))
        else
          match fetchPages s sz ct cb ap rest with
          | (evs, .error e) => (.fetchReq p sz ct :: evs, .error e)
          | (evs, .ok ds) => (.fetchReq p sz ct :: evs, .ok (data :: ds))
      else
        ([.fetchReq p sz ct], .error (.fetchFail p (data.errorMsg.getD "Unknown error")))

/-- Python list slice `l[:c]`; a negative bound counts from the end. -/
def pySliceTo (l : List ContentItem) (c : Int) : List ContentItem :=
  if 0 ≤ c then l.take c.toNat else l.take (l.length - (-c).toNat)

/-- Aggregation and truncation steps of `fetch_items`: build `all_content`
from the fetched pages, trim it to `count`, and assemble the returned
dict. -/
def aggregate (pagination : PaginationInfo) (results : List PageData) (count : Int) :
    AggregationResult :=
  { content := pySliceTo ((results.map pageContrib).flatten) count
  , totalFetched := ((results.map pageContrib).flatten).length
  , requested := count
  , actual := (pySliceTo ((results.map pageContrib).flatten) count).length
  , pagesFetched := results.length
  , pagination := pagination }

/-- Embeds `fetch_items`: probe for pagination info, plan the pages, fetch
them sequentially, aggregate and trim.  Returns the emitted events
alongside the result or the raised error.  A `pageSize` of 0 raises
Python's ZeroDivisionError in the ceiling division. -/
def fetch_items (s : Server) (count : Int) (options : FetchOptions) :
    List Event × Except FetchErr AggregationResult :=
  match get_pagination_info s options.contentType with
  | .error e => ([.fetchReq 1 1 options.contentType], .error e)
  | .ok pagination =>
    if options.pageSize = 0 then ([.fetchReq 1 1 options.contentType], .error .zeroDiv)
    else
      match fetchPages s options.pageSize options.contentType options.hasProgress
          (actual_pages count options.pageSize pagination.totalPages)
          (pagesToFetch count options.pageSize pagination.totalPages) with
      | (evs, .error e) => (.fetchReq 1 1 options.contentType :: evs, .error e)
      | (evs, .ok results) =>
        (.fetchReq 1 1 options.contentType :: evs, .ok (aggregate pagination results count))

/-- One loop iteration of `fetch_items` completes without raising: the page
body arrives, reports success, and (when a callback is installed) its
content length is computable and equals `n`. -/
def goodPage (s : Server) (options : FetchOptions) (p : Int) (d : PageData) (n : Nat) : Prop :=
  fetch_content_page s p options.pageSize options.contentType = .ok d ∧
  d.success = true ∧
  (options.hasProgress = true → cbLen d = some n)

instance {ε α : Type} [DecidableEq ε] [DecidableEq α] : DecidableEq (Except ε α) := fun x y =>
  match x, y with
  | .ok a, .ok b =>
    if h : a = b then .isTrue (by rw [h]) else .isFalse (by simp [h])
  | .error a, .error b =>
    if h : a = b then .isTrue (by rw [h]) else .isFalse (by simp [h])
  | .ok _, .error _ => .isFalse (by simp)
  | .error _, .ok _ => .isFalse (by simp)

instance goodPage.instDecidable (s : Server) (options : FetchOptions) (p : Int)
    (d : PageData) (n : Nat) : Decidable (goodPage s options p d n) := by
  unfold goodPage
  infer_instance

/-- Modelled from the spec sentence on `fetch_content_page` for comparison
with the source: a passthrough that additionally normalizes a missing
`content` field to an empty sequence in the returned value. -/
def fetch_content_page_specNorm (s : Server) (page limit : Int) (content_type : Option String) :
    Except FetchErr PageData :=
  match fetch_content_page s page limit content_type with
  | .error e => .error e
  | .ok d => .ok { d with content := some (d.content.getD (.vlist [])) }

/-- A fixed opaque content item used by the concrete test sources. -/
def itm0 : ContentItem := ⟨"t", "a", "b"⟩

/-- Body of a full content page holding `limit` copies of `itm0`. -/
def pageBody (limit : Int) : PageData :=
  { success := true, content := some (.vlist (List.replicate limit.toNat itm0))
  , errorMsg := none, pagination := none }

/-- A source with 46 pages of 50 items; the probe reports the pagination
metadata of the demonstration scenario. -/
def srvMain : Server := fun _page limit _ct =>
  if limit = 1 then
    .ok { success := true, content := some (.vlist [itm0]), errorMsg := none
        , pagination := some ⟨some 46, some 2300, some true⟩ }
  else .ok (pageBody limit)

/-- A successful response body carrying no content and no pagination. -/
def dEP : PageData :=
  { success := true, content := none, errorMsg := none, pagination := none }

/-- A source whose probe response carries no pagination object at all. -/
def srvEmptyPag : Server := fun _page _limit _ct => .ok dEP

/-- A source whose probe reports zero total pages. -/
def srvZero : Server := fun _page _limit _ct =>
  .ok { success := true, content := none, errorMsg := none
      , pagination := some ⟨some 0, some 0, some false⟩ }

/-- Body of the deliberately failing page 2 of `srvFail`. -/
def dFail2 : PageData :=
  { success := false, content := none, errorMsg := some "server error", pagination := none }

/-- A source of 3 pages whose page 2 reports `success = false`. -/
def srvFail : Server := fun page limit _ct =>
  if limit = 1 then
    .ok { success := true, content := some (.vlist [itm0]), errorMsg := none
        , pagination := some ⟨some 3, some 150, some true⟩ }
  else if page = 2 then .ok dFail2
  else .ok (pageBody limit)

/-- A source of one page whose content is ten items regardless of the
requested limit. -/
def srvNeg : Server := fun _page limit _ct =>
  if limit = 1 then
    .ok { success := true, content := some (.vlist [itm0]), errorMsg := none
        , pagination := some ⟨some 1, some 10, some false⟩ }
  else .ok (pageBody 10)

/-- A source whose content pages carry the number 5 in the `content` field:
a truthy value without a length. -/
def srvBadContent : Server := fun _page limit _ct =>
  if limit = 1 then
    .ok { success := true, content := none, errorMsg := none
        , pagination := some ⟨some 1, some 5, some false⟩ }
  else .ok { success := true, content := some (.vint 5), errorMsg := none, pagination := none }

/-- A source whose content pages carry the number 0 in the `content` field:
a falsy value without a length. -/
def srvZeroContent : Server := fun _page limit _ct =>
  if limit = 1 then
    .ok { success := true, content := none, errorMsg := none
        , pagination := some ⟨some 1, some 5, some false⟩ }
  else .ok { success := true, content := some (.vint 0), errorMsg := none, pagination := none }

/-- Body of a successful page whose `content` key is absent. -/
def dNoContent : PageData :=
  { success := true, content := none, errorMsg := none, pagination := none }

/-- A source whose every response reports success but carries no `content`
key. -/
def srvNoContent : Server := fun _page limit _ct =>
  if limit = 1 then
    .ok { success := true, content := none, errorMsg := none
        , pagination := some ⟨some 2, some 60, some true⟩ }
  else .ok dNoContent

/-! Helper lemmas about the embedded operations. -/

lemma pySliceTo_nil (c : Int) : pySliceTo [] c = [] := by
  unfold pySliceTo
  simp [List.take_nil]

lemma pySliceTo_of_nonneg (l : List ContentItem) (c : Int) (hc : 0 ≤ c) :
    pySliceTo l c = l.take c.toNat := by
  unfold pySliceTo
  simp [hc]

lemma pagesToFetch_eq_nil (count page_size totalPages : Int)
    (h : actual_pages count page_size totalPages ≤ 0) :
    pagesToFetch count page_size totalPages = [] := by
  unfold pagesToFetch
  rw [Int.toNat_of_nonpos h]
  rfl

lemma pages_needed_nonpos (count page_size : Int) (hc : count ≤ 0) (hp : 0 < page_size) :
    pages_needed count page_size ≤ 0 := by
  unfold pages_needed
  rw [Int.fdiv_eq_ediv _ (le_of_lt hp)]
  have h1 : count + page_size - 1 < 1 * page_size := by linarith
  have := (Int.ediv_lt_iff_lt_mul hp).mpr h1
  omega

lemma pages_needed_eq_ceil (c p : Int) (_hc : 0 < c) (hp : 0 < p) :
    pages_needed c p = ⌈(c : ℚ) / (p : ℚ)⌉ := by
  have hp0 : (0 : ℚ) < (p : ℚ) := by exact_mod_cast hp
  unfold pages_needed
  rw [Int.fdiv_eq_ediv _ (le_of_lt hp)]
  have hupper : c + p - 1 < ((c + p - 1) / p + 1) * p :=
    Int.lt_ediv_add_one_mul_self (c + p - 1) hp
  have hlower : (c + p - 1) / p * p ≤ c + p - 1 :=
    Int.ediv_mul_le (c + p - 1) (ne_of_gt hp)
  symm
  rw [Int.ceil_eq_iff]
  constructor
  · rw [lt_div_iff₀ hp0]
    have hint : (((c + p - 1) / p - 1) * p : Int) < c := by nlinarith
    have hq : ((((c + p - 1) / p - 1 : Int) : ℚ)) * (p : ℚ) < (c : ℚ) := by exact_mod_cast hint
    calc ((((c + p - 1) / p : Int) : ℚ) - 1) * (p : ℚ)
        = ((((c + p - 1) / p - 1 : Int) : ℚ)) * (p : ℚ) := by push_cast; ring
      _ < (c : ℚ) := hq
  · rw [div_le_iff₀ hp0]
    have : (c : Int) ≤ (c + p - 1) / p * p := by nlinarith
    exact_mod_cast this

lemma pagesToFetch_pos (count page_size totalPages : Int) (q : Int)
    (hq : q ∈ pagesToFetch count page_size totalPages) : 1 ≤ q := by
  unfold pagesToFetch at hq
  rcases List.mem_map.mp hq with ⟨i, -, hi⟩
  subst hi
  omega

lemma pagesToFetch_pairwise (count page_size totalPages : Int) :
    (pagesToFetch count page_size totalPages).Pairwise (· < ·) := by
  unfold pagesToFetch
  refine List.Pairwise.map _ ?_
    (List.pairwise_lt_range (actual_pages count page_size totalPages).toNat)
  intro a b hab
  omega

lemma fetchPages_good (s : Server) (o : FetchOptions) (ap : Int)
    (dfun : Int → PageData) (nfun : Int → Nat) :
    ∀ ps : List Int,
      (∀ p ∈ ps, goodPage s o p (dfun p) (nfun p)) →
      fetchPages s o.pageSize o.contentType o.hasProgress ap ps =
        ((ps.map (fun p => Event.fetchReq p o.pageSize o.contentType ::
            (if o.hasProgress then [Event.progress p ap (nfun p)] else []))).flatten,
         .ok (ps.map dfun)) := by
  intro ps
  induction ps with
  | nil => intro _; rfl
  | cons p rest ih =>
    intro h
    obtain ⟨h1, h2, h3⟩ := h p (List.mem_cons_self p rest)
    have hr := ih (fun q hq => h q (List.mem_cons_of_mem p hq))
    show fetchPages s o.pageSize o.contentType o.hasProgress ap (p :: rest) = _
    unfold fetchPages
    rw [h1]
    cases hcb : o.hasProgress with
    | false =>
      rw [hcb] at hr
      simp [h2, hr]
    | true =>
      rw [hcb] at hr
      simp [h2, h3 hcb, hr]

lemma fetchPages_bad (s : Server) (o : FetchOptions) (ap : Int)
    (dfun : Int → PageData) (nfun : Int → Nat) (p : Int) (d : PageData) (post : List Int)
    (hfetch : fetch_content_page s p o.pageSize o.contentType = .ok d)
    (hfail : d.success = false) :
    ∀ pre : List Int,
      (∀ q ∈ pre, goodPage s o q (dfun q) (nfun q)) →
      fetchPages s o.pageSize o.contentType o.hasProgress ap (pre ++ p :: post) =
        ((pre.map (fun q => Event.fetchReq q o.pageSize o.contentType ::
            (if o.hasProgress then [Event.progress q ap (nfun q)] else []))).flatten
           ++ [Event.fetchReq p o.pageSize o.contentType],
         .error (.fetchFail p (d.errorMsg.getD "Unknown error"))) := by
  intro pre
  induction pre with
  | nil =>
    intro _
    show fetchPages s o.pageSize o.contentType o.hasProgress ap (p :: post) = _
    unfold fetchPages
    rw [hfetch]
    simp [hfail]
  | cons q rest ih =>
    intro h
    obtain ⟨h1, h2, h3⟩ := h q (List.mem_cons_self q rest)
    have hr := ih (fun q' hq' => h q' (List.mem_cons_of_mem q hq'))
    show fetchPages s o.pageSize o.contentType o.hasProgress ap (q :: (rest ++ p :: post)) = _
    unfold fetchPages
    rw [h1]
    cases hcb : o.hasProgress with
    | false =>
      rw [hcb] at hr
      simp [h2, hr]
    | true =>
      rw [hcb] at hr
      simp [h2, h3 hcb, hr]

lemma fetch_items_eq_of_probe (s : Server) (count : Int) (o : FetchOptions)
    (pag : PaginationInfo)
    (hprobe : get_pagination_info s o.contentType = .ok pag) (hps : o.pageSize ≠ 0) :
    fetch_items s count o =
      (Event.fetchReq 1 1 o.contentType ::
         (fetchPages s o.pageSize o.contentType o.hasProgress
            (actual_pages count o.pageSize pag.totalPages)
            (pagesToFetch count o.pageSize pag.totalPages)).1,
       Except.map (fun results => aggregate pag results count)
         (fetchPages s o.pageSize o.contentType o.hasProgress
            (actual_pages count o.pageSize pag.totalPages)
            (pagesToFetch count o.pageSize pag.totalPages)).2) := by
  unfold fetch_items
  rw [hprobe]
  simp only [hps, if_false]
  rcases hfp : fetchPages s o.pageSize o.contentType o.hasProgress
      (actual_pages count o.pageSize pag.totalPages)
      (pagesToFetch count o.pageSize pag.totalPages) with ⟨evs, r⟩
  cases r with
  | error e => simp [Except.map]
  | ok results => simp [Except.map]

lemma fetch_items_good (s : Server) (count : Int) (o : FetchOptions)
    (pag : PaginationInfo) (dfun : Int → PageData) (nfun : Int → Nat)
    (hprobe : get_pagination_info s o.contentType = .ok pag) (hps : o.pageSize ≠ 0)
    (hgood : ∀ p ∈ pagesToFetch count o.pageSize pag.totalPages,
      goodPage s o p (dfun p) (nfun p)) :
    fetch_items s count o =
      (Event.fetchReq 1 1 o.contentType ::
         ((pagesToFetch count o.pageSize pag.totalPages).map
            (fun p => Event.fetchReq p o.pageSize o.contentType ::
              (if o.hasProgress then
                [Event.progress p (actual_pages count o.pageSize pag.totalPages) (nfun p)]
               else []))).flatten,
       .ok (aggregate pag ((pagesToFetch count o.pageSize pag.totalPages).map dfun) count)) := by
  rw [fetch_items_eq_of_probe s count o pag hprobe hps,
    fetchPages_good s o (actual_pages count o.pageSize pag.totalPages) dfun nfun
      (pagesToFetch count o.pageSize pag.totalPages) hgood]
  rfl

lemma fetch_items_totalPages_zero (s : Server) (count : Int) (o : FetchOptions)
    (pag : PaginationInfo)
    (hprobe : get_pagination_info s o.contentType = .ok pag) (hps : o.pageSize ≠ 0)
    (h0 : pag.totalPages = 0) :
    fetch_items s count o =
      ([Event.fetchReq 1 1 o.contentType],
       .ok { content := [], totalFetched := 0, requested := count, actual := 0,
             pagesFetched := 0, pagination := pag }) := by
  have hnil : pagesToFetch count o.pageSize pag.totalPages = [] := by
    apply pagesToFetch_eq_nil
    unfold actual_pages
    rw [h0]
    exact min_le_right _ _
  rw [fetch_items_eq_of_probe s count o pag hprobe hps, hnil]
  show (Event.fetchReq 1 1 o.contentType :: ([], Except.ok ([] : List PageData)).1,
    Except.map (fun results => aggregate pag results count)
      ([], Except.ok ([] : List PageData)).2) = _
  simp [Except.map, aggregate, pySliceTo_nil]

lemma fetch_items_ok_elim (s : Server) (count : Int) (o : FetchOptions)
    (tr : List Event) (r : AggregationResult)
    (h : fetch_items s count o = (tr, .ok r)) :
    ∃ pag results, r = aggregate pag results count := by
  unfold fetch_items at h
  rcases hg : get_pagination_info s o.contentType with e | pag
  · rw [hg] at h
    simp at h
  · rw [hg] at h
    by_cases hz : o.pageSize = 0
    · simp [hz] at h
    · simp only [hz, if_false] at h
      rcases hfp : fetchPages s o.pageSize o.contentType o.hasProgress
          (actual_pages count o.pageSize pag.totalPages)
          (pagesToFetch count o.pageSize pag.totalPages) with ⟨evs, rr⟩
      rw [hfp] at h
      cases rr with
      | error e => simp at h
      | ok results =>
        simp at h
        exact ⟨pag, results, h.2.symm⟩

/-! Claim theorems. -/

/-- Claim C4: for all count > 0 and pageSize > 0, `fetch_items` computes
`pagesNeeded = ceil(count / pageSize)` and
`actualPages = min(pagesNeeded, totalPages)`; in particular with
totalPages 46, pageSize 50 and count 75 it computes pagesNeeded 2 and
actualPages 2 and fetches exactly pages 1 and 2. -/
theorem claim_C4 :
    (∀ c p : Int, 0 < c → 0 < p → pages_needed c p = ⌈(c : ℚ) / (p : ℚ)⌉) ∧
    (∀ c p tp : Int, actual_pages c p tp = min (pages_needed c p) tp) ∧
    pages_needed 75 50 = 2 ∧
    actual_pages 75 50 46 = 2 ∧
    fetch_items srvMain 75 {} =
      ([Event.fetchReq 1 1 none, Event.fetchReq 1 50 none, Event.fetchReq 2 50 none],
       .ok { content := List.replicate 75 itm0, totalFetched := 100, requested := 75,
             actual := 75, pagesFetched := 2, pagination := ⟨46, 2300, true⟩ }) :=
  ⟨pages_needed_eq_ceil, fun _ _ _ => rfl, by decide, by decide, by rfl⟩

/-- Witness for claim C4 at count 7, pageSize 3. -/
theorem claim_C4_witness : pages_needed 7 3 = ⌈((7 : Int) : ℚ) / ((3 : Int) : ℚ)⌉ :=
  claim_C4.1 7 3 (by decide) (by decide)

/-- Claim C5 counterexample: at count = -50, pageSize = 50, the code
computes `pages_needed = -1`, not 0 as the claim states (Python floor
division of a negative numerator). -/
theorem claim_C5_counterexample : pages_needed (-50) 50 = -1 ∧ ((-1 : Int) ≠ 0) := by
  decide

/-- Claim C5 (amended): for count ≤ 0 and pageSize > 0, `pages_needed` is
nonpositive (0 only when count > -pageSize) and `fetch_items` issues no
content-page request: its trace is exactly the probe request. -/
theorem claim_C5_amended (count : Int) (s : Server) (o : FetchOptions)
    (hc : count ≤ 0) (hp : 0 < o.pageSize) :
    pages_needed count o.pageSize ≤ 0 ∧
    (fetch_items s count o).1 = [Event.fetchReq 1 1 o.contentType] := by
  have hpn := pages_needed_nonpos count o.pageSize hc hp
  refine ⟨hpn, ?_⟩
  rcases hg : get_pagination_info s o.contentType with e | pag
  · unfold fetch_items
    rw [hg]
  · have hps : o.pageSize ≠ 0 := by omega
    have hnil : pagesToFetch count o.pageSize pag.totalPages = [] := by
      apply pagesToFetch_eq_nil
      exact le_trans (min_le_left _ _) hpn
    rw [fetch_items_eq_of_probe s count o pag hg hps, hnil]
    rfl

/-- Witness for claim C5 (amended) at count 0 with the default options. -/
theorem claim_C5_witness :
    pages_needed 0 50 ≤ 0 ∧ (fetch_items srvMain 0 {}).1 = [Event.fetchReq 1 1 none] :=
  claim_C5_amended 0 srvMain {} (by decide) (by decide)

/-- Claim C7: when the probe reports totalPages = 0, `fetch_items` returns
an AggregationResult with actual 0, pagesFetched 0 and empty content, and
its trace holds only the probe request. -/
theorem claim_C7 (s : Server) (count : Int) (o : FetchOptions) (pag : PaginationInfo)
    (hps : o.pageSize ≠ 0)
    (hprobe : get_pagination_info s o.contentType = .ok pag)
    (h0 : pag.totalPages = 0) :
    fetch_items s count o =
      ([Event.fetchReq 1 1 o.contentType],
       .ok { content := [], totalFetched := 0, requested := count, actual := 0,
             pagesFetched := 0, pagination := pag }) :=
  fetch_items_totalPages_zero s count o pag hprobe hps h0

/-- Witness for claim C7 on a source reporting zero total pages. -/
theorem claim_C7_witness :
    fetch_items srvZero 5 {} =
      ([Event.fetchReq 1 1 none],
       .ok { content := [], totalFetched := 0, requested := 5, actual := 0,
             pagesFetched := 0, pagination := ⟨0, 0, false⟩ }) :=
  claim_C7 srvZero 5 {} ⟨0, 0, false⟩ (by decide) (by rfl) rfl

/-- Claim C1 counterexample: at count = -5 on an empty source the returned
result has actual = 0 and totalFetched = 0, while
min(count, totalFetched) = -5, so `actual = min(requested, totalFetched)`
fails for negative counts. -/
theorem claim_C1_counterexample :
    (fetch_items srvEmptyPag (-5) {}).2 =
      .ok { content := [], totalFetched := 0, requested := -5, actual := 0,
            pagesFetched := 0, pagination := ⟨0, 0, false⟩ } ∧
    ¬(((0 : Nat) : Int) = min (-5 : Int) ((0 : Nat) : Int)) :=
  ⟨by rfl, by decide⟩

/-- Claim C1 (amended): for every count ≥ 0, a `fetch_items` call that
returns a result satisfies `actual = min(count, totalFetched)`; for
count < 0 the equality cannot hold for any returned result, as its right
side is then negative while `actual` is a length. -/
theorem claim_C1_amended (s : Server) (count : Int) (o : FetchOptions) (tr : List Event)
    (r : AggregationResult) (hc : 0 ≤ count)
    (h : fetch_items s count o = (tr, .ok r)) :
    (r.actual : Int) = min count (r.totalFetched : Int) := by
  obtain ⟨pag, results, hr⟩ := fetch_items_ok_elim s count o tr r h
  subst hr
  show ((pySliceTo ((results.map pageContrib).flatten) count).length : Int) =
    min count ((((results.map pageContrib).flatten).length : Nat) : Int)
  rw [pySliceTo_of_nonneg _ _ hc, List.length_take, Nat.cast_min, Int.toNat_of_nonneg hc]

/-- The result of fetching 10 items from `srvMain`. -/
def rC1 : AggregationResult :=
  { content := List.replicate 10 itm0, totalFetched := 50, requested := 10,
    actual := 10, pagesFetched := 1, pagination := ⟨46, 2300, true⟩ }

/-- Witness for claim C1 (amended) at count 10 on `srvMain`. -/
theorem claim_C1_witness : (rC1.actual : Int) = min (10 : Int) (rC1.totalFetched : Int) :=
  claim_C1_amended srvMain 10 {} [Event.fetchReq 1 1 none, Event.fetchReq 1 50 none] rC1
    (by decide) (by rfl)

/-- Claim C2: when the fetch loop reaches a page whose body reports
success = false (all pages before it in the plan completing normally),
`fetch_items` raises an error naming that page and its message, issues no
request for any later planned page, and returns no AggregationResult. -/
theorem claim_C2 (s : Server) (count : Int) (o : FetchOptions) (pag : PaginationInfo)
    (dfun : Int → PageData) (nfun : Int → Nat) (pre post : List Int) (p : Int) (d : PageData)
    (hps : o.pageSize ≠ 0)
    (hprobe : get_pagination_info s o.contentType = .ok pag)
    (hsplit : pagesToFetch count o.pageSize pag.totalPages = pre ++ p :: post)
    (hpre : ∀ q ∈ pre, goodPage s o q (dfun q) (nfun q))
    (hfetch : fetch_content_page s p o.pageSize o.contentType = .ok d)
    (hfail : d.success = false) :
    (fetch_items s count o).2 = .error (.fetchFail p (d.errorMsg.getD "Unknown error")) ∧
    ∀ q ∈ post, Event.fetchReq q o.pageSize o.contentType ∉ (fetch_items s count o).1 := by
  have heq : fetch_items s count o =
      (Event.fetchReq 1 1 o.contentType ::
        ((pre.map (fun q => Event.fetchReq q o.pageSize o.contentType ::
            (if o.hasProgress then
              [Event.progress q (actual_pages count o.pageSize pag.totalPages) (nfun q)]
             else []))).flatten
          ++ [Event.fetchReq p o.pageSize o.contentType]),
       .error (.fetchFail p (d.errorMsg.getD "Unknown error"))) := by
    rw [fetch_items_eq_of_probe s count o pag hprobe hps, hsplit,
      fetchPages_bad s o (actual_pages count o.pageSize pag.totalPages) dfun nfun p d post
        hfetch hfail pre hpre]
    rfl
  rw [heq]
  refine ⟨rfl, ?_⟩
  have hpw : (pre ++ p :: post).Pairwise (· < ·) := by
    rw [← hsplit]
    exact pagesToFetch_pairwise count o.pageSize pag.totalPages
  obtain ⟨hpw_pre, hpw_cons, hcross⟩ := List.pairwise_append.mp hpw
  have hp_lt : ∀ q ∈ post, p < q := (List.pairwise_cons.mp hpw_cons).1
  have hp_pos : 1 ≤ p := by
    apply pagesToFetch_pos count o.pageSize pag.totalPages
    rw [hsplit]
    exact List.mem_append_right _ (List.mem_cons_self _ _)
  intro q hq hmem
  have hq2 : 2 ≤ q := by
    have := hp_lt q hq
    omega
  rcases List.mem_cons.mp hmem with h1 | h1
  · injection h1 with e1 e2 e3
    omega
  · rcases List.mem_append.mp h1 with h2 | h2
    · rcases List.mem_flatten.mp h2 with ⟨l, hl, hql⟩
      rcases List.mem_map.mp hl with ⟨a, ha, rfl⟩
      have haq : a < q := hcross a ha q (List.mem_cons_of_mem _ hq)
      rcases List.mem_cons.mp hql with h3 | h3
      · injection h3 with e1 e2 e3
        omega
      · cases hcb : o.hasProgress with
        | false =>
          rw [hcb] at h3
          simp at h3
        | true =>
          rw [hcb] at h3
          simp at h3
    · simp only [List.mem_singleton] at h2
      injection h2 with e1 e2 e3
      have := hp_lt q hq
      omega

/-- Witness for claim C2 on a three-page source whose page 2 reports
success = false with message "server error". -/
theorem claim_C2_witness :
    (fetch_items srvFail 150 {}).2 = .error (.fetchFail 2 "server error") :=
  (claim_C2 srvFail 150 {} ⟨3, 150, true⟩ (fun _ => pageBody 50) (fun _ => 50)
    [1] [3] 2 dFail2 (by decide) (by rfl) (by decide) (by decide) (by rfl) (by decide)).1

/-- Claim C3 counterexample: with count = -5 and pageSize = -10 a
successful call returns five items, while the first count elements of the
concatenated page contents (a take of a negative count) are none. -/
theorem claim_C3_counterexample :
    (fetch_items srvNeg (-5) { pageSize := -10 }).2 =
      .ok (aggregate ⟨1, 10, false⟩ [pageBody 10] (-5)) ∧
    (aggregate ⟨1, 10, false⟩ [pageBody 10] (-5)).content ≠
      (([pageBody 10].map pageContrib).flatten).take (Int.toNat (-5)) :=
  ⟨by rfl, by decide⟩

/-- Claim C3 (amended): for count ≥ 0, a successful `fetch_items` call
returns as content exactly the first count elements of the concatenation,
in fetch order, of the fetched pages' aggregated content sequences. -/
theorem claim_C3_amended (s : Server) (count : Int) (o : FetchOptions)
    (pag : PaginationInfo) (dfun : Int → PageData) (nfun : Int → Nat)
    (hc : 0 ≤ count) (hps : o.pageSize ≠ 0)
    (hprobe : get_pagination_info s o.contentType = .ok pag)
    (hgood : ∀ q ∈ pagesToFetch count o.pageSize pag.totalPages,
      goodPage s o q (dfun q) (nfun q)) :
    (fetch_items s count o).2 =
      .ok (aggregate pag ((pagesToFetch count o.pageSize pag.totalPages).map dfun) count) ∧
    (aggregate pag ((pagesToFetch count o.pageSize pag.totalPages).map dfun) count).content =
      (((pagesToFetch count o.pageSize pag.totalPages).map
          (fun q => pageContrib (dfun q))).flatten).take count.toNat := by
  constructor
  · rw [fetch_items_good s count o pag dfun nfun hprobe hps hgood]
  · show pySliceTo
        ((((pagesToFetch count o.pageSize pag.totalPages).map dfun).map pageContrib).flatten)
        count = _
    rw [pySliceTo_of_nonneg _ _ hc, List.map_map]
    rfl

/-- Witness for claim C3 (amended) at count 75 on `srvMain`. -/
theorem claim_C3_witness :
    (fetch_items srvMain 75 {}).2 =
      .ok (aggregate ⟨46, 2300, true⟩ ((pagesToFetch 75 50 46).map (fun _ => pageBody 50)) 75) ∧
    (aggregate ⟨46, 2300, true⟩ ((pagesToFetch 75 50 46).map (fun _ => pageBody 50)) 75).content =
      (((pagesToFetch 75 50 46).map
          (fun q => pageContrib ((fun _ => pageBody 50) q))).flatten).take (Int.toNat 75) :=
  claim_C3_amended srvMain 75 {} ⟨46, 2300, true⟩ (fun _ => pageBody 50) (fun _ => 50)
    (by decide) (by decide) (by rfl) (by decide)

/-- Claim C8: `fetch_items` requests pages 1..actualPages strictly
sequentially in increasing order, and with a callback installed the trace
interleaves, after each page's request, exactly one progress invocation
with arguments (pageIndex, actualPages, itemsInThisPage) before the next
page's request. -/
theorem claim_C8 (s : Server) (count : Int) (o : FetchOptions)
    (pag : PaginationInfo) (dfun : Int → PageData) (nfun : Int → Nat)
    (hps : o.pageSize ≠ 0) (hcb : o.hasProgress = true)
    (hprobe : get_pagination_info s o.contentType = .ok pag)
    (hgood : ∀ q ∈ pagesToFetch count o.pageSize pag.totalPages,
      goodPage s o q (dfun q) (nfun q)) :
    pagesToFetch count o.pageSize pag.totalPages =
      (List.range (actual_pages count o.pageSize pag.totalPages).toNat).map
        (fun (i : Nat) => (i : Int) + 1) ∧
    (fetch_items s count o).1 =
      Event.fetchReq 1 1 o.contentType ::
        ((pagesToFetch count o.pageSize pag.totalPages).map
          (fun p => [Event.fetchReq p o.pageSize o.contentType,
            Event.progress p (actual_pages count o.pageSize pag.totalPages) (nfun p)])).flatten := by
  refine ⟨rfl, ?_⟩
  rw [fetch_items_good s count o pag dfun nfun hprobe hps hgood]
  simp [hcb]

/-- Witness for claim C8 at count 75 on `srvMain` with a callback. -/
theorem claim_C8_witness :
    pagesToFetch 75 50 46 =
      (List.range (actual_pages 75 50 46).toNat).map (fun (i : Nat) => (i : Int) + 1) ∧
    (fetch_items srvMain 75 { hasProgress := true }).1 =
      Event.fetchReq 1 1 none ::
        ((pagesToFetch 75 50 46).map
          (fun p => [Event.fetchReq p 50 none,
            Event.progress p (actual_pages 75 50 46) 50])).flatten :=
  claim_C8 srvMain 75 { hasProgress := true } ⟨46, 2300, true⟩
    (fun _ => pageBody 50) (fun _ => 50) (by decide) rfl (by rfl) (by decide)

/-- Claim C9: when the probe response lacks a pagination object,
`get_pagination_info` returns the defaults totalPages 0, totalItems 0,
hasNextPage false (and per-field defaults apply to individually missing
fields), so `fetch_items` on such a source returns an empty aggregation
instead of raising. -/
theorem claim_C9 (s : Server) (ct : Option String) (d : PageData) (count : Int)
    (o : FetchOptions)
    (hfc : fetch_content_page s 1 1 ct = .ok d)
    (hct : o.contentType = ct) (hps : o.pageSize ≠ 0) :
    (∀ pr, d.pagination = some pr →
      get_pagination_info s ct =
        .ok ⟨pr.totalPages.getD 0, pr.totalItems.getD 0, pr.hasNextPage.getD false⟩) ∧
    (d.pagination = none →
      get_pagination_info s ct =
        .ok { totalPages := 0, totalItems := 0, hasNextPage := false } ∧
      (fetch_items s count o).2 =
        .ok { content := [], totalFetched := 0, requested := count,
              actual := 0, pagesFetched := 0, pagination := ⟨0, 0, false⟩ }) := by
  constructor
  · intro pr hpr
    unfold get_pagination_info
    rw [hfc]
    simp [hpr]
  · intro hnone
    have hgp : get_pagination_info s ct = .ok ⟨0, 0, false⟩ := by
      unfold get_pagination_info
      rw [hfc]
      simp [hnone]
    refine ⟨hgp, ?_⟩
    have hz := fetch_items_totalPages_zero s count o ⟨0, 0, false⟩
      (by rw [hct]; exact hgp) hps rfl
    rw [hz]

/-- Witness for claim C9 on a source whose responses carry no pagination. -/
theorem claim_C9_witness :
    (∀ pr, dEP.pagination = some pr →
      get_pagination_info srvEmptyPag none =
        .ok ⟨pr.totalPages.getD 0, pr.totalItems.getD 0, pr.hasNextPage.getD false⟩) ∧
    (dEP.pagination = none →
      get_pagination_info srvEmptyPag none =
        .ok { totalPages := 0, totalItems := 0, hasNextPage := false } ∧
      (fetch_items srvEmptyPag 5 {}).2 =
        .ok { content := [], totalFetched := 0, requested := 5,
              actual := 0, pagesFetched := 0, pagination := ⟨0, 0, false⟩ }) :=
  claim_C9 srvEmptyPag none dEP 5 {} (by rfl) rfl (by decide)

/-- Claim C10 counterexample: a page reporting success whose content is a
value without a length aborts the run with a TypeError and no result, so
it counts toward no pagesFetched and triggers no callback — the number 5
(truthy) raises in the logged count of the fetch itself, and the number 0
(falsy) raises in the callback's length computation when a callback is
installed. -/
theorem claim_C10_counterexample :
    fetch_items srvBadContent 10 {} =
      ([Event.fetchReq 1 1 none, Event.fetchReq 1 50 none], .error .typeError) ∧
    fetch_items srvZeroContent 10 { hasProgress := true } =
      ([Event.fetchReq 1 1 none, Event.fetchReq 1 50 none], .error .typeError) := by
  exact ⟨rfl, rfl⟩

/-- Claim C10 (amended): a page reporting success whose content field is
absent or holds a value with a computable length (a list or a string),
while contributing no items to the aggregation, still counts toward
pagesFetched and still triggers the progress callback, so pagesFetched
can exceed the number of pages that contributed items; a content value
without a length (a number, a boolean, or null) instead raises a
TypeError — in the logged count when truthy, or in the callback's length
computation when a callback is installed — aborting the run with no
result. -/
theorem claim_C10_amended (s : Server) (count : Int) (o : FetchOptions)
    (pag : PaginationInfo) (dfun : Int → PageData) (nfun : Int → Nat) (p : Int)
    (hps : o.pageSize ≠ 0) (hcb : o.hasProgress = true)
    (hprobe : get_pagination_info s o.contentType = .ok pag)
    (hgood : ∀ q ∈ pagesToFetch count o.pageSize pag.totalPages,
      goodPage s o q (dfun q) (nfun q))
    (hp : p ∈ pagesToFetch count o.pageSize pag.totalPages)
    (hskip : pageContrib (dfun p) = []) :
    (fetch_items s count o).2 =
      .ok (aggregate pag ((pagesToFetch count o.pageSize pag.totalPages).map dfun) count) ∧
    (aggregate pag ((pagesToFetch count o.pageSize pag.totalPages).map dfun)
        count).pagesFetched = (pagesToFetch count o.pageSize pag.totalPages).length ∧
    Event.progress p (actual_pages count o.pageSize pag.totalPages) (nfun p) ∈
      (fetch_items s count o).1 ∧
    ((pagesToFetch count o.pageSize pag.totalPages).filter
        (fun q => !(pageContrib (dfun q)).isEmpty)).length <
      (aggregate pag ((pagesToFetch count o.pageSize pag.totalPages).map dfun)
        count).pagesFetched := by
  have hlen : (aggregate pag ((pagesToFetch count o.pageSize pag.totalPages).map dfun)
      count).pagesFetched = (pagesToFetch count o.pageSize pag.totalPages).length := by
    show ((pagesToFetch count o.pageSize pag.totalPages).map dfun).length = _
    rw [List.length_map]
  refine ⟨?_, hlen, ?_, ?_⟩
  · rw [fetch_items_good s count o pag dfun nfun hprobe hps hgood]
  · rw [fetch_items_good s count o pag dfun nfun hprobe hps hgood]
    apply List.mem_cons_of_mem
    apply List.mem_flatten.mpr
    refine ⟨_, List.mem_map.mpr ⟨p, hp, rfl⟩, ?_⟩
    rw [hcb]
    simp
  · rw [hlen]
    refine List.length_filter_lt_length_iff_exists.mpr ⟨p, hp, ?_⟩
    simp [hskip]

/-- Witness for claim C10 (amended): one planned page whose content key is
absent still counts in pagesFetched and still triggers the callback. -/
theorem claim_C10_witness :
    (fetch_items srvNoContent 10 { hasProgress := true }).2 =
      .ok (aggregate ⟨2, 60, true⟩ ((pagesToFetch 10 50 2).map (fun _ => dNoContent)) 10) ∧
    (aggregate ⟨2, 60, true⟩ ((pagesToFetch 10 50 2).map (fun _ => dNoContent))
        10).pagesFetched = (pagesToFetch 10 50 2).length ∧
    Event.progress 1 (actual_pages 10 50 2) 0 ∈
      (fetch_items srvNoContent 10 { hasProgress := true }).1 ∧
    ((pagesToFetch 10 50 2).filter
        (fun q => !(pageContrib ((fun _ => dNoContent) q)).isEmpty)).length <
      (aggregate ⟨2, 60, true⟩ ((pagesToFetch 10 50 2).map (fun _ => dNoContent))
        10).pagesFetched :=
  claim_C10_amended srvNoContent 10 { hasProgress := true } ⟨2, 60, true⟩
    (fun _ => dNoContent) (fun _ => 0) 1 (by decide) rfl (by rfl) (by decide)
    (by decide) (by decide)

/-- Claim C6 counterexample: a response without a content key is returned
by `fetch_content_page` unchanged, with the content field still absent,
differing from the spec-modelled variant that normalizes it to an empty
sequence. -/
theorem claim_C6_counterexample :
    fetch_content_page srvNoContent 1 50 none = .ok dNoContent ∧
    dNoContent.content = none ∧
    fetch_content_page srvNoContent 1 50 none ≠
      fetch_content_page_specNorm srvNoContent 1 50 none := by
  refine ⟨rfl, rfl, ?_⟩
  decide

/-- Claim C6 (amended): `fetch_content_page` is a pure passthrough: a
successfully parsed body whose content value supports a length (or is
falsy) is returned unchanged — a missing content field is treated as an
empty sequence only in the logged count, not in the returned value — and a
collaborator failure surfaces as a TransportError. -/
theorem claim_C6_amended (s : Server) (page limit : Int) (ct : Option String) :
    (∀ d, s page limit ct = .ok d →
      (∀ v, d.content = some v → truthy v = true → (pyLen v).isSome = true) →
      fetch_content_page s page limit ct = .ok d) ∧
    (∀ e, s page limit ct = .error e →
      fetch_content_page s page limit ct = .error (.transport e)) := by
  constructor
  · intro d hd hlen
    unfold fetch_content_page
    rw [hd]
    cases hc : d.content with
    | none => simp [hc, truthyContent]
    | some v =>
      by_cases ht : truthy v = true
      · rcases Option.isSome_iff_exists.mp (hlen v hc ht) with ⟨n, hn⟩
        simp [hc, truthyContent, ht, hn]
      · simp [hc, truthyContent, ht]
  · intro e he
    unfold fetch_content_page
    rw [he]

/-- Witness for claim C6 (amended) on a response without a content key. -/
theorem claim_C6_witness :
    fetch_content_page srvNoContent 1 50 none = .ok dNoContent :=
  (claim_C6_amended srvNoContent 1 50 none).1 dNoContent rfl
    (fun _v hv => Option.noConfusion hv)
